import Mathlib

/-!
Verification of the clinical data-entry core of the repository
(`aplicacion.py`, `google_sheets.py`).

Strings are modelled as Lean `String` / `List Char`; Python's `str.upper`
is modelled as a character-wise map covering ASCII letters and the Spanish
accented letters that appear in the keyword lists; Python floats are
modelled as rationals with an explicit banker's rounding; the external
spreadsheet store is modelled as an explicit state value.
-/

set_option maxRecDepth 4000

/-- Model of Python `str.upper` restricted to a character-wise map:
ASCII lowercase letters map to uppercase, the Spanish accented lowercase
vowels and `ñ` map to their uppercase forms, every other character is
fixed. -/
def pyUpper (c : Char) : Char :=
  if c = 'á' then 'Á'
  else if c = 'é' then 'É'
  else if c = 'í' then 'Í'
  else if c = 'ó' then 'Ó'
  else if c = 'ú' then 'Ú'
  else if c = 'ü' then 'Ü'
  else if c = 'ñ' then 'Ñ'
  else c.toUpper

/-- `matchAt needle hay` is true when `needle` occurs at the very start of
`hay` (model of matching one candidate position of Python's `in`). -/
def matchAt : List Char → List Char → Bool
  | [], _ => true
  | _ :: _, [] => false
  | x :: xs, y :: ys => x == y && matchAt xs ys

/-- `occursIn needle hay` is true when `needle` occurs as a contiguous
substring of `hay` (model of Python's `needle in hay` on strings). -/
def occursIn (n : List Char) : List Char → Bool
  | [] => n.isEmpty
  | y :: ys => matchAt n (y :: ys) || occursIn n ys

/-- Keyword list for the critical tier (`keywords_critico`,
aplicacion.py line 11). -/
def keywords_critico : List String := ["DIABETES", "INFARTO", "ACV", "INSUFICIENCIA"]

/-- Keyword list for the control tier (`keywords_control`,
aplicacion.py line 12). -/
def keywords_control : List String := ["HIPERTENSIÓN", "LOSARTAN", "ENALAPRIL"]

/-- Keyword list for the alert tier (`keywords_alerta`,
aplicacion.py line 13). -/
def keywords_alerta : List String := ["COLESTEROL", "TRIGLICÉRIDOS", "OBESIDAD"]

/-- `texto = (diagnostico + " " + tratamiento).upper()`
(aplicacion.py line 15), at the character-list level. -/
def textoOf (diagnostico tratamiento : String) : List Char :=
  (diagnostico.data ++ ' ' :: tratamiento.data).map pyUpper

/-- `any(k in texto for k in ks)` (aplicacion.py lines 17, 19, 21). -/
def anyKeyword (ks : List String) (texto : List Char) : Bool :=
  ks.any fun k => occursIn k.data texto

/-- `clasificar_paciente` (aplicacion.py lines 9-24): keyword-based risk
classification with strict priority critical > control > alert > general. -/
def clasificar_paciente (diagnostico tratamiento : String) : String :=
  if anyKeyword keywords_critico (textoOf diagnostico tratamiento) then "CRÍTICO"
  else if anyKeyword keywords_control (textoOf diagnostico tratamiento) then "CONTROL"
  else if anyKeyword keywords_alerta (textoOf diagnostico tratamiento) then "ALERTA"
  else "GENERAL"

/-- The spec's `Classification` enum. -/
inductive Classification where
  | CRITICAL
  | CONTROL
  | ALERT
  | GENERAL
deriving DecidableEq

/-- Reference classifier written from the spec's words (section 4.2):
concatenate the two fields with a separating space, uppercase the result,
then test the three fixed keyword lists in strict priority order, first
match wins. -/
def classifySpec (diagnosis treatment : String) : Classification :=
  if ["DIABETES", "INFARTO", "ACV", "INSUFICIENCIA"].any
      (fun k => occursIn k.data (((diagnosis ++ " " ++ treatment).data).map pyUpper)) then
    Classification.CRITICAL
  else if ["HIPERTENSIÓN", "LOSARTAN", "ENALAPRIL"].any
      (fun k => occursIn k.data (((diagnosis ++ " " ++ treatment).data).map pyUpper)) then
    Classification.CONTROL
  else if ["COLESTEROL", "TRIGLICÉRIDOS", "OBESIDAD"].any
      (fun k => occursIn k.data (((diagnosis ++ " " ++ treatment).data).map pyUpper)) then
    Classification.ALERT
  else
    Classification.GENERAL

/-- Map the code's classification string to the spec's enum. -/
def toTier (s : String) : Classification :=
  if s = "CRÍTICO" then Classification.CRITICAL
  else if s = "CONTROL" then Classification.CONTROL
  else if s = "ALERTA" then Classification.ALERT
  else Classification.GENERAL

/-! ### Id normalization and patient lookup -/

/-- Strip leading and trailing whitespace from a character list
(model of Python `str.strip()`). -/
def stripChars (l : List Char) : List Char :=
  (((l.dropWhile Char.isWhitespace).reverse).dropWhile Char.isWhitespace).reverse

/-- Model of Python `str(x).strip()` on a string value. -/
def pyStrip (s : String) : String :=
  ⟨stripChars s.data⟩

/-- Load-time id cleaning
`df["dni"].astype(str).str.strip().str.split(".").str[0]`
(google_sheets.py line 162): cast to string, strip whitespace, keep the
part before the first literal `.`. -/
def normalizeId (s : String) : String :=
  ⟨(stripChars s.data).takeWhile (fun c => c ≠ '.')⟩

/-- A roster row, after column-name normalization: the fields the core
reads from the padrón. -/
structure RosterEntry where
  dni : String
  nombre : String
  apellido : String
deriving DecidableEq

/-- Load-time normalization of the roster's `dni` column
(google_sheets.py line 162) applied to every row. -/
def loadRosterIds (raw : List RosterEntry) : List RosterEntry :=
  raw.map fun e => { e with dni := normalizeId e.dni }

/-- The search in aplicacion.py lines 88-98:
`dni_a_buscar_limpio = str(dni_a_buscar).strip()`, then
`padron_df[padron_df['dni'] == dni_a_buscar_limpio]` and `iloc[0]` of the
matches; `none` models the not-found branch. -/
def findById (roster : List RosterEntry) (q : String) : Option RosterEntry :=
  (roster.filter fun e => e.dni == pyStrip q).head?

/-- Lookup as the claim words it: the query id is normalized with the
very same `normalizeId` used on roster ids at load time (trim AND
truncation at the first dot), then compared by exact string equality. -/
def findByIdClaim (roster : List RosterEntry) (q : String) : Option RosterEntry :=
  (roster.filter fun e => e.dni == normalizeId q).head?

/-! ### BMI -/

/-- Model of Python's built-in `round` to an integer: round half to even. -/
def pyRound (q : ℚ) : ℤ :=
  if q - ⌊q⌋ < 1 / 2 then ⌊q⌋
  else if 1 / 2 < q - ⌊q⌋ then ⌊q⌋ + 1
  else if ⌊q⌋ % 2 = 0 then ⌊q⌋ else ⌊q⌋ + 1

/-- Model of Python `round(x, 2)`. -/
def round2 (q : ℚ) : ℚ :=
  (pyRound (q * 100) : ℚ) / 100

/-- `imc_calculado` (aplicacion.py lines 149-151): 0.0 unless both weight
and height are positive, else `round(peso / estatura ** 2, 2)`. -/
def imc_calculado (peso estatura : ℚ) : ℚ :=
  if 0 < peso ∧ 0 < estatura then round2 (peso / estatura ^ 2) else 0

/-! ### Quarter label -/

/-- `pandas.Timestamp.quarter`: calendar quarter of a month number. -/
def quarterOfMonth (month : ℕ) : ℕ :=
  (month - 1) / 3 + 1

/-- `f"Q{fecha_actual.quarter}-{fecha_actual.year}"`
(aplicacion.py lines 122 and 175). -/
def trimestre_str (month year : ℕ) : String :=
  "Q" ++ toString (quarterOfMonth month) ++ "-" ++ toString year

/-! ### Historical store, saving, quarterly count -/

/-- A raw row of the `Registro_Historico` worksheet as returned by
`get_all_records`: `none` models a missing field/column. -/
structure RawHistRow where
  dni : Option String
  trimestre : Option String
deriving DecidableEq

/-- A history row after `get_historical_df` guaranteed the `DNI` and
`Trimestre` columns exist. -/
structure HistRow where
  dni : String
  trimestre : String
deriving DecidableEq

/-- The column-filling in `get_historical_df` (google_sheets.py
lines 206-209): a missing field becomes the empty string. -/
def fillRow (r : RawHistRow) : HistRow :=
  { dni := r.dni.getD "", trimestre := r.trimestre.getD "" }

/-- The external spreadsheet, as the two files see it: whether the
connection exists, whether an append would fail with an API error, and
the `Registro_Historico` worksheet (`none` while it does not exist). -/
structure Store where
  connected : Bool
  writeFails : Bool
  history : Option (List RawHistRow)
deriving DecidableEq

/-- `get_historical_df` (google_sheets.py lines 197-215): empty frame
when the connection is `None` or the worksheet does not exist, otherwise
the rows with the key columns filled in. -/
def get_historical_df (store : Store) : List HistRow :=
  if store.connected then (store.history.getD []).map fillRow else []

/-- The visit record `record_data` built in aplicacion.py lines 177-190. -/
structure VisitRecord where
  dni : String
  fecha : String
  trimestre : String
  nombre : String
  apellido : String
  pa : String
  peso : ℚ
  estatura : ℚ
  imc : ℚ
  diagnostico : String
  tratamiento : String
  clasificacion : String
deriving DecidableEq

/-- The appended row, as `get_all_records` later reads it back: the DNI
and Trimestre fields are present. -/
def rowOfRecord (r : VisitRecord) : RawHistRow :=
  { dni := some r.dni, trimestre := some r.trimestre }

/-- The form fields kept in session state (aplicacion.py lines 60-69). -/
structure FormState where
  peso_input : ℚ
  estatura_input : ℚ
  pa_input : String
  diag_input : String
  trata_input : String
deriving DecidableEq

/-- The reset performed after a successful save
(aplicacion.py lines 196-200). -/
def clearedForm : FormState :=
  { peso_input := 0, estatura_input := 0, pa_input := "", diag_input := "", trata_input := "" }

/-- `record_data` assembly (aplicacion.py lines 174-190): roster is
authoritative for name/surname, BMI and classification are recomputed
from the form fields, the quarter label comes from the current date. -/
def buildRecord (currentDni : String) (entry : RosterEntry) (month year : ℕ)
    (fechaStr : String) (fs : FormState) : VisitRecord :=
  { dni := currentDni
    fecha := fechaStr
    trimestre := trimestre_str month year
    nombre := entry.nombre
    apellido := entry.apellido
    pa := fs.pa_input
    peso := fs.peso_input
    estatura := fs.estatura_input
    imc := imc_calculado fs.peso_input fs.estatura_input
    diagnostico := fs.diag_input
    tratamiento := fs.trata_input
    clasificacion := clasificar_paciente fs.diag_input fs.trata_input }

/-- `save_historical_record` (google_sheets.py lines 173-194): `False`
without touching the sheet when there is no connection; creates the
worksheet (with a header row) when missing; appends the row and returns
`True`, or returns `False` when the append raises. -/
def save_historical_record (store : Store) (r : VisitRecord) : Bool × Store :=
  if store.connected = false then (false, store)
  else
    let store1 :=
      match store.history with
      | none => { store with history := some [] }
      | some _ => store
    if store1.writeFails then (false, store1)
    else (true, { store1 with history := some ((store1.history.getD []) ++ [rowOfRecord r]) })

/-- `atenciones_trimestre` (aplicacion.py lines 124-127): the number of
history rows whose `DNI` and `Trimestre` both equal the current values. -/
def atenciones_trimestre (history : List HistRow) (dni trimestre : String) : ℕ :=
  (history.filter fun r => r.dni == dni && r.trimestre == trimestre).length

/-- The save branch of the form handler (aplicacion.py lines 192-208):
on success the five form fields are reset, on failure (returned `False`
or exception) the session-state fields are left untouched. -/
def guardar_btn (store : Store) (r : VisitRecord) (fs : FormState) :
    Store × FormState × Bool :=
  match save_historical_record store r with
  | (true, store2) => (store2, clearedForm, true)
  | (false, store2) => (store2, fs, false)

/-- A concrete visit record used by witnesses. -/
def sampleRecord : VisitRecord :=
  { dni := "123", fecha := "2024-02-15 10:00:00", trimestre := "Q1-2024"
    nombre := "ANA", apellido := "PEREZ", pa := "120/80"
    peso := 70, estatura := 17 / 10, imc := 2422 / 100
    diagnostico := "control", tratamiento := "", clasificacion := "GENERAL" }

/-! ### Helper lemmas about substring occurrence -/

theorem matchAt_append_of {n a : List Char} (s : List Char) (h : matchAt n a = true) :
    matchAt n (a ++ s) = true := by
  induction n generalizing a with
  | nil => rfl
  | cons x xs ih =>
    cases a with
    | nil => simp [matchAt] at h
    | cons y ys =>
      simp [matchAt] at h ⊢
      exact ⟨h.1, ih h.2⟩

theorem matchAt_of_append {n a b : List Char} {c : Char} (hc : c ∉ n)
    (h : matchAt n (a ++ c :: b) = true) : matchAt n a = true := by
  induction n generalizing a with
  | nil => rfl
  | cons x xs ih =>
    cases a with
    | nil =>
      simp [matchAt] at h
      apply absurd _ hc
      rw [h.1]
      exact List.mem_cons_self _ _
    | cons y ys =>
      simp [matchAt] at h ⊢
      exact ⟨h.1, ih (fun hm => hc (List.mem_cons_of_mem _ hm)) h.2⟩

theorem occursIn_nil (s : List Char) : occursIn [] s = true := by
  cases s <;> simp [occursIn, matchAt]

theorem occursIn_of_matchAt {n h : List Char} (hm : matchAt n h = true) :
    occursIn n h = true := by
  cases h with
  | nil =>
    cases n with
    | nil => rfl
    | cons x xs => simp [matchAt] at hm
  | cons y ys => simp [occursIn, hm]

theorem occursIn_append_right {n a : List Char} (s : List Char)
    (h : occursIn n a = true) : occursIn n (a ++ s) = true := by
  induction a with
  | nil =>
    cases n with
    | nil => exact occursIn_nil s
    | cons x xs => simp [occursIn] at h
  | cons y ys ih =>
    simp only [occursIn, Bool.or_eq_true] at h
    rcases h with h | h
    · exact occursIn_of_matchAt (matchAt_append_of s h)
    · simp only [List.cons_append, occursIn, Bool.or_eq_true]
      exact Or.inr (ih h)

theorem occursIn_append_left {n b : List Char} (a : List Char)
    (h : occursIn n b = true) : occursIn n (a ++ b) = true := by
  induction a with
  | nil => exact h
  | cons y ys ih =>
    simp only [List.cons_append, occursIn, Bool.or_eq_true]
    exact Or.inr ih

theorem occursIn_append_iff {n : List Char} {c : Char} (hc : c ∉ n) (a b : List Char) :
    occursIn n (a ++ c :: b) = true ↔ (occursIn n a = true ∨ occursIn n b = true) := by
  constructor
  · intro h
    induction a with
    | nil =>
      simp only [List.nil_append, occursIn, Bool.or_eq_true] at h
      rcases h with h | h
      · cases n with
        | nil => exact Or.inl (occursIn_nil [])
        | cons x xs =>
          simp [matchAt] at h
          apply absurd _ hc
          rw [h.1]
          exact List.mem_cons_self _ _
      · exact Or.inr h
    | cons y ys ih =>
      simp only [List.cons_append, occursIn, Bool.or_eq_true] at h
      rcases h with h | h
      · exact Or.inl (occursIn_of_matchAt (matchAt_of_append hc h))
      · rcases ih h with h2 | h2
        · refine Or.inl ?_
          simp only [occursIn, Bool.or_eq_true]
          exact Or.inr h2
        · exact Or.inr h2
  · intro h
    rcases h with h | h
    · exact occursIn_append_right (c :: b) h
    · simpa using occursIn_append_left (a ++ [c]) h

theorem matchAt_map (f : Char → Char) {n h : List Char} (hm : matchAt n h = true) :
    matchAt (n.map f) (h.map f) = true := by
  induction n generalizing h with
  | nil => rfl
  | cons x xs ih =>
    cases h with
    | nil => simp [matchAt] at hm
    | cons y ys =>
      simp [matchAt] at hm ⊢
      exact ⟨congrArg f hm.1, ih hm.2⟩

theorem occursIn_map (f : Char → Char) {n h : List Char} (hm : occursIn n h = true) :
    occursIn (n.map f) (h.map f) = true := by
  induction h with
  | nil =>
    cases n with
    | nil => rfl
    | cons x xs => simp [occursIn] at hm
  | cons y ys ih =>
    simp only [occursIn, Bool.or_eq_true] at hm
    rcases hm with hm | hm
    · exact occursIn_of_matchAt (matchAt_map f hm)
    · simp only [List.map_cons, occursIn, Bool.or_eq_true]
      exact Or.inr (ih hm)

theorem pyUpper_space : pyUpper ' ' = ' ' := by decide

theorem textoOf_eq (d t : String) :
    textoOf d t = d.data.map pyUpper ++ ' ' :: t.data.map pyUpper := by
  simp [textoOf, pyUpper_space]

theorem occursIn_textoOf_comm {k : List Char} (hk : ' ' ∉ k) (d t : String) :
    occursIn k (textoOf d t) = occursIn k (textoOf t d) := by
  rw [textoOf_eq, textoOf_eq, Bool.eq_iff_iff,
    occursIn_append_iff hk, occursIn_append_iff hk]
  exact or_comm

theorem anyKeyword_comm (ks : List String) (hk : ∀ k ∈ ks, ' ' ∉ k.data)
    (d t : String) :
    anyKeyword ks (textoOf d t) = anyKeyword ks (textoOf t d) := by
  unfold anyKeyword
  induction ks with
  | nil => rfl
  | cons k ks ih =>
    have h1 : ' ' ∉ k.data := hk k (List.mem_cons_self k ks)
    have h2 : ∀ x ∈ ks, ' ' ∉ x.data := fun x hx => hk x (List.mem_cons_of_mem k hx)
    simp only [List.any_cons]
    rw [occursIn_textoOf_comm h1 d t, ih h2]

/-! ### Further helper lemmas -/

theorem texto_spec_eq (d t : String) :
    ((d ++ " " ++ t).data).map pyUpper = textoOf d t := by
  simp [textoOf, pyUpper_space, String.data_append]

theorem filter_head_eq_find {α : Type} (p : α → Bool) (l : List α) :
    (l.filter p).head? = l.find? p := by
  induction l with
  | nil => rfl
  | cons x xs ih =>
    cases h : p x <;> simp [List.filter_cons, List.find?_cons, h, ih]

theorem dropWhile_eq_self_of {p : Char → Bool} {l : List Char}
    (h : ∀ c ∈ l, p c = false) : l.dropWhile p = l := by
  cases l with
  | nil => rfl
  | cons x xs => simp [List.dropWhile, h x (List.mem_cons_self x xs)]

theorem takeWhile_eq_self_of {p : Char → Bool} {l : List Char}
    (h : ∀ c ∈ l, p c = true) : l.takeWhile p = l := by
  induction l with
  | nil => rfl
  | cons x xs ih =>
    simp [List.takeWhile, h x (List.mem_cons_self x xs),
      ih fun c hc => h c (List.mem_cons_of_mem x hc)]

theorem fillRow_match (pid label : String) (hpid : pid ≠ "") (hlabel : label ≠ "")
    (r : RawHistRow) :
    ((fillRow r).dni == pid && (fillRow r).trimestre == label) =
      decide (r.dni = some pid ∧ r.trimestre = some label) := by
  obtain ⟨d, q⟩ := r
  rw [Bool.eq_iff_iff]
  cases d <;> cases q <;>
    simp [fillRow, Ne.symm hpid, Ne.symm hlabel]

theorem save_ok (store : Store) (r : VisitRecord)
    (hc : store.connected = true) (hw : store.writeFails = false) :
    save_historical_record store r =
      (true, { connected := true, writeFails := false,
               history := some ((store.history.getD []) ++ [rowOfRecord r]) }) := by
  obtain ⟨c, w, hist⟩ := store
  subst hc
  subst hw
  cases hist <;> simp [save_historical_record]

/-! ### Claim theorems -/

/-- C1: `clasificar_paciente` equals the reference definition: uppercase
the space-separated concatenation of diagnosis and treatment, return the
first tier in strict priority order CRITICAL, CONTROL, ALERT whose keyword
list has a member occurring as a substring, and GENERAL otherwise; any
pair of texts whose concatenation contains "INFARTO" is classified
CRITICAL, and the empty pair is GENERAL. -/
theorem C1_classifier_matches_reference :
    (∀ d t : String, classifySpec d t = toTier (clasificar_paciente d t)) ∧
    (∀ d t : String, occursIn "INFARTO".data (d ++ " " ++ t).data = true →
      clasificar_paciente d t = "CRÍTICO") ∧
    clasificar_paciente "" "" = "GENERAL" := by
  refine ⟨?_, ?_, by decide⟩
  · intro d t
    simp only [classifySpec, clasificar_paciente, anyKeyword,
      keywords_critico, keywords_control, keywords_alerta, texto_spec_eq]
    split_ifs <;> decide
  · intro d t h
    have h2 := occursIn_map pyUpper h
    rw [texto_spec_eq] at h2
    rw [show ("INFARTO".data.map pyUpper) = "INFARTO".data from by decide] at h2
    have h4 : anyKeyword keywords_critico (textoOf d t) = true := by
      simp only [anyKeyword, keywords_critico, List.any_cons, Bool.or_eq_true]
      exact Or.inr (Or.inl h2)
    simp [clasificar_paciente, h4]

/-- C1 witness: a concrete pair containing "INFARTO" is classified
CRITICAL by the code. -/
theorem C1_witness :
    occursIn "INFARTO".data ("pre INFARTO agudo" ++ " " ++ "reposo").data = true ∧
    clasificar_paciente "pre INFARTO agudo" "reposo" = "CRÍTICO" :=
  ⟨by decide, C1_classifier_matches_reference.2.1 "pre INFARTO agudo" "reposo" (by decide)⟩

/-- C2 counterexample: the code does NOT normalize the query id the same
way roster ids are normalized at load time — the query is only trimmed,
never truncated at a decimal point. With roster ids ["00123", "456"] a
query "00123.0" finds nothing in the code, while the claim's
normalization would find the "00123" entry. -/
theorem C2_counterexample :
    findById (loadRosterIds [⟨"00123", "A", "B"⟩, ⟨"456", "C", "D"⟩]) "00123.0" = none ∧
    findByIdClaim (loadRosterIds [⟨"00123", "A", "B"⟩, ⟨"456", "C", "D"⟩]) "00123.0"
      = some ⟨"00123", "A", "B"⟩ := by
  exact ⟨by decide, by decide⟩

/-- C2 (amended): `findById` trims the query id (cast to string, strip
surrounding whitespace — without the load-time truncation at a decimal
point) and performs exact string equality against roster ids with no
numeric coercion, returning the first matching entry and NotFound when no
row matches; with roster ids ["00123","456"], query "00123" returns the
matching entry and query "123" returns NotFound. -/
theorem C2_findById_amended (raw : List RosterEntry) (q : String) :
    findById (loadRosterIds raw) q
      = (loadRosterIds raw).find? (fun e => e.dni == pyStrip q) ∧
    findById (loadRosterIds [⟨"00123", "A", "B"⟩, ⟨"456", "C", "D"⟩]) "00123"
      = some ⟨"00123", "A", "B"⟩ ∧
    findById (loadRosterIds [⟨"00123", "A", "B"⟩, ⟨"456", "C", "D"⟩]) "123" = none :=
  ⟨filter_head_eq_find _ _, by decide, by decide⟩

/-- C6: `normalizeId` trims surrounding whitespace and truncates at the
first '.', keeping only the prefix; it never raises, preserves leading
zeros, and maps the empty input to the empty string; in particular
`normalizeId " 123.0 " = "123"` and `normalizeId "00123" = "00123"`. -/
theorem C6_normalizeId (s : String)
    (h : ∀ c ∈ s.data, ¬c.isWhitespace = true ∧ c ≠ '.') :
    normalizeId " 123.0 " = "123" ∧ normalizeId "00123" = "00123" ∧
    normalizeId "" = "" ∧ normalizeId s = s := by
  refine ⟨by decide, by decide, by decide, ?_⟩
  cases s with
  | mk l =>
    have hw : ∀ c ∈ l, Char.isWhitespace c = false := by
      intro c hc
      cases hcb : c.isWhitespace with
      | false => rfl
      | true => exact absurd hcb (h c hc).1
    have hw2 : ∀ c ∈ l.reverse, Char.isWhitespace c = false := fun c hc =>
      hw c (List.mem_reverse.mp hc)
    unfold normalizeId stripChars
    rw [dropWhile_eq_self_of hw, dropWhile_eq_self_of hw2, List.reverse_reverse,
      takeWhile_eq_self_of fun c hc => by simpa using (h c hc).2]

/-- C6 witness: a plain digit string is left unchanged. -/
theorem C6_witness : normalizeId "42" = "42" :=
  (C6_normalizeId "42" (by decide)).2.2.2

/-- C9: the classifier applies no accent-folding — only uppercasing —
while the control and alert keyword lists contain the accented forms
"HIPERTENSIÓN" and "TRIGLICÉRIDOS"; hence the unaccented spelling
"hipertension" classifies as GENERAL while "hipertensión" classifies as
CONTROL. -/
theorem C9_no_accent_folding :
    "HIPERTENSIÓN" ∈ keywords_control ∧ "TRIGLICÉRIDOS" ∈ keywords_alerta ∧
    clasificar_paciente "hipertension" "" = "GENERAL" ∧
    clasificar_paciente "hipertensión" "" = "CONTROL" :=
  ⟨by decide, by decide, by decide, by decide⟩

/-- C10: the classifier is commutative in its two arguments: no keyword
contains a space, so no keyword can match across the single-space
boundary of the concatenation. -/
theorem C10_classify_commutative (d t : String) :
    clasificar_paciente d t = clasificar_paciente t d := by
  unfold clasificar_paciente
  rw [anyKeyword_comm keywords_critico (by decide) d t,
    anyKeyword_comm keywords_control (by decide) d t,
    anyKeyword_comm keywords_alerta (by decide) d t]

/-- C7: `imc_calculado` returns weight / height² rounded to 2 decimal
places when both weight and height are positive, and 0.0 otherwise (not
an error); in particular BMI(0, 1.70) = 0, BMI(70, 0) = 0 and
BMI(70, 1.75) = 22.86. -/
theorem C7_computeBmi (w h : ℚ) :
    (0 < w → 0 < h → imc_calculado w h = round2 (w / h ^ 2)) ∧
    (¬(0 < w ∧ 0 < h) → imc_calculado w h = 0) ∧
    imc_calculado 0 (17 / 10) = 0 ∧ imc_calculado 70 0 = 0 ∧
    imc_calculado 70 (7 / 4) = 2286 / 100 := by
  refine ⟨?_, ?_, ?_, ?_, ?_⟩
  · intro hw hh
    rw [imc_calculado, if_pos ⟨hw, hh⟩]
  · intro hn
    rw [imc_calculado, if_neg hn]
  · rw [imc_calculado, if_neg]
    norm_num
  · rw [imc_calculado, if_neg]
    norm_num
  · rw [imc_calculado, if_pos (by norm_num : (0:ℚ) < 70 ∧ (0:ℚ) < 7 / 4), round2, pyRound]
    norm_num [Int.floor_eq_iff]

/-- C7 witness: the positive branch at weight 70 kg, height 2 m. -/
theorem C7_witness : imc_calculado 70 2 = round2 (70 / 2 ^ 2) :=
  (C7_computeBmi 70 2).1 (by norm_num) (by norm_num)

/-- C8: the quarter label is a pure function of month and year of the
form "Q{quarter}-{year}" with standard calendar-quarter boundaries
(months 1-3 give Q1, 4-6 give Q2, 7-9 give Q3, 10-12 give Q4); for
2024-02 the label is "Q1-2024" and for 2024-07 it is "Q3-2024". -/
theorem C8_quarter_label (month year : ℕ) (h1 : 1 ≤ month) (h2 : month ≤ 12) :
    trimestre_str month year
      = "Q" ++ toString (quarterOfMonth month) ++ "-" ++ toString year ∧
    (month ≤ 3 → quarterOfMonth month = 1) ∧
    (4 ≤ month → month ≤ 6 → quarterOfMonth month = 2) ∧
    (7 ≤ month → month ≤ 9 → quarterOfMonth month = 3) ∧
    (10 ≤ month → quarterOfMonth month = 4) ∧
    trimestre_str 2 2024 = "Q1-2024" ∧ trimestre_str 7 2024 = "Q3-2024" := by
  refine ⟨rfl, ?_, ?_, ?_, ?_, by decide, by decide⟩
  · intro h3
    unfold quarterOfMonth
    omega
  · intro h3 h4
    unfold quarterOfMonth
    omega
  · intro h3 h4
    unfold quarterOfMonth
    omega
  · intro h3
    unfold quarterOfMonth
    omega

/-- C8 witness: the February 2024 label. -/
theorem C8_witness : trimestre_str 2 2024 = "Q1-2024" :=
  (C8_quarter_label 2 2024 (by decide) (by decide)).2.2.2.2.2.1

/-- C4: the quarterly visit count equals the number of history rows whose
patient id and quarter label are present and equal (exact string
equality) to the queried values; it is 0 when the history worksheet is
absent, when the connection is absent, or when the history is empty, and
rows with a missing DNI or Trimestre field count as non-matching. -/
theorem C4_quarterly_count (store : Store) (rows : List RawHistRow) (pid label : String)
    (hpid : pid ≠ "") (hlabel : label ≠ "") :
    (store.connected = false →
      atenciones_trimestre (get_historical_df store) pid label = 0) ∧
    (store.history = none →
      atenciones_trimestre (get_historical_df store) pid label = 0) ∧
    atenciones_trimestre
        (get_historical_df
          { connected := true, writeFails := store.writeFails, history := some [] })
        pid label = 0 ∧
    atenciones_trimestre
        (get_historical_df
          { connected := true, writeFails := store.writeFails, history := some rows })
        pid label
      = rows.countP (fun r => decide (r.dni = some pid ∧ r.trimestre = some label)) := by
  refine ⟨?_, ?_, ?_, ?_⟩
  · intro hc
    simp [get_historical_df, hc, atenciones_trimestre]
  · intro hh
    cases hcon : store.connected <;>
      simp [get_historical_df, hcon, hh, atenciones_trimestre]
  · simp [get_historical_df, atenciones_trimestre]
  · simp only [get_historical_df, if_pos, List.filter_map, List.length_map,
      List.countP_eq_length_filter, atenciones_trimestre]
    congr 1
    apply List.filter_congr
    intro r _
    simpa [Function.comp] using fillRow_match pid label hpid hlabel r

/-- C4 witness: with one matching row, one other-quarter row and one row
missing its DNI field, the count is 1. -/
theorem C4_witness :
    atenciones_trimestre
        (get_historical_df
          { connected := true, writeFails := false,
            history := some [⟨some "1", some "Q1-2024"⟩, ⟨some "1", some "Q4-2023"⟩,
              ⟨none, some "Q1-2024"⟩] })
        "1" "Q1-2024"
      = List.countP
          (fun r : RawHistRow => decide (r.dni = some "1" ∧ r.trimestre = some "Q1-2024"))
          [⟨some "1", some "Q1-2024"⟩, ⟨some "1", some "Q4-2023"⟩, ⟨none, some "Q1-2024"⟩] :=
  (C4_quarterly_count ⟨true, false, none⟩
    [⟨some "1", some "Q1-2024"⟩, ⟨some "1", some "Q4-2023"⟩, ⟨none, some "Q1-2024"⟩]
    "1" "Q1-2024" (by decide) (by decide)).2.2.2

/-- C3: building a visit record for a patient and the current quarter,
successfully appending it, and reloading history yields a quarterly count
one greater than before the append. -/
theorem C3_roundtrip (store : Store) (entry : RosterEntry) (currentDni fecha : String)
    (month year : ℕ) (fs : FormState)
    (hc : store.connected = true) (hw : store.writeFails = false) :
    (save_historical_record store (buildRecord currentDni entry month year fecha fs)).1
      = true ∧
    atenciones_trimestre
        (get_historical_df
          (save_historical_record store
            (buildRecord currentDni entry month year fecha fs)).2)
        currentDni (trimestre_str month year)
      = atenciones_trimestre (get_historical_df store) currentDni
          (trimestre_str month year) + 1 := by
  rw [save_ok store _ hc hw]
  refine ⟨rfl, ?_⟩
  simp [get_historical_df, hc, atenciones_trimestre, List.filter_append,
    rowOfRecord, fillRow, buildRecord]

/-- C3 witness: starting from an absent history worksheet, a saved record
makes the count go from 0 to 1. -/
theorem C3_witness :
    (save_historical_record ⟨true, false, none⟩
        (buildRecord "123" ⟨"00123", "A", "B"⟩ 2 2024 "2024-02-15 10:00:00" clearedForm)).1
      = true ∧
    atenciones_trimestre
        (get_historical_df
          (save_historical_record ⟨true, false, none⟩
            (buildRecord "123" ⟨"00123", "A", "B"⟩ 2 2024 "2024-02-15 10:00:00"
              clearedForm)).2)
        "123" (trimestre_str 2 2024)
      = atenciones_trimestre (get_historical_df ⟨true, false, none⟩) "123"
          (trimestre_str 2 2024) + 1 :=
  C3_roundtrip ⟨true, false, none⟩ ⟨"00123", "A", "B"⟩ "123" "2024-02-15 10:00:00"
    2 2024 clearedForm rfl rfl

/-- C5: when the append of a visit record fails, the entered form data is
preserved unchanged so the user can retry; the form fields are reset only
after a successful save. -/
theorem C5_form_preserved (store : Store) (r : VisitRecord) (fs : FormState) :
    ((save_historical_record store r).1 = false → (guardar_btn store r fs).2.1 = fs) ∧
    ((save_historical_record store r).1 = true →
      (guardar_btn store r fs).2.1 = clearedForm) := by
  constructor <;> intro h <;>
    · rcases hs : save_historical_record store r with ⟨ok, st2⟩
      rw [hs] at h
      subst h
      simp [guardar_btn, hs]

/-- C5 witness: a failing save (no connection) leaves a filled form
untouched. -/
theorem C5_witness :
    (save_historical_record ⟨false, false, none⟩ sampleRecord).1 = false ∧
    (guardar_btn ⟨false, false, none⟩ sampleRecord
        ⟨70, 17 / 10, "120/80", "dx", "tx"⟩).2.1
      = ⟨70, 17 / 10, "120/80", "dx", "tx"⟩ :=
  ⟨rfl, (C5_form_preserved ⟨false, false, none⟩ sampleRecord
    ⟨70, 17 / 10, "120/80", "dx", "tx"⟩).1 rfl⟩
